import Mathlib

/-!
Verification of the asynchronous media-transform pipeline of the
smartdemo-studio backend. The definitions below shallowly embed the
relevant parts of `src/backend/src/services/videoProcessor.ts`,
`src/backend/src/services/queue.ts` and
`src/backend/src/routes/export.ts`: pure helpers become Lean functions,
the three stateful operations (`processVideo`, `generateAudio`,
`exportVideo`) become trace-producing functions over an explicit
environment that records which external steps fail, and entity-store
writes become explicit state passing on a `RecState` record. JS numbers
are modelled as rationals.
-/

namespace SmartDemo

/-- JS `a || d` for an optional string operand: `undefined` and `""` are falsy. -/
def jsOrStr (o : Option String) (d : String) : String :=
  match o with
  | none => d
  | some s => if s = "" then d else s

/-- JS `a || d` for an optional numeric operand: `undefined` and `0` are falsy. -/
def jsOrNum (o : Option ℚ) (d : ℚ) : ℚ :=
  match o with
  | none => d
  | some x => if x = 0 then d else x

/-- JS `String.prototype.padStart(n, c)`. -/
def padStart (s : String) (n : Nat) (c : Char) : String :=
  if n ≤ s.length then s else String.mk (List.replicate (n - s.length) c) ++ s

/-- JS `x % n`. For the nonnegative operands used by `formatTime` this is
`x - n * Math.floor(x / n)`. -/
def jsMod (x n : ℚ) : ℚ := x - n * ⌊x / n⌋

/-- `Math.floor(seconds / 3600)` in `formatTime` (videoProcessor.ts). -/
def hoursOf (seconds : ℚ) : ℤ := ⌊seconds / 3600⌋

/-- `Math.floor((seconds % 3600) / 60)` in `formatTime`. -/
def minutesOf (seconds : ℚ) : ℤ := ⌊jsMod seconds 3600 / 60⌋

/-- `Math.floor(seconds % 60)` in `formatTime`. -/
def secsOf (seconds : ℚ) : ℤ := ⌊jsMod seconds 60⌋

/-- `Math.floor((seconds % 1) * 1000)` in `formatTime`. -/
def msOf (seconds : ℚ) : ℤ := ⌊jsMod seconds 1 * 1000⌋

/-- `formatTime` from videoProcessor.ts: renders seconds as the SRT
timestamp `HH:MM:SS,mmm`, each component zero-padded with `padStart`. -/
def formatTime (seconds : ℚ) : String :=
  padStart (toString (hoursOf seconds)) 2 '0' ++ ":" ++
  padStart (toString (minutesOf seconds)) 2 '0' ++ ":" ++
  padStart (toString (secsOf seconds)) 2 '0' ++ "," ++
  padStart (toString (msOf seconds)) 3 '0'

/-- The `backoff` sub-record of a Bull queue's `defaultJobOptions` (queue.ts). -/
structure BackoffOptions where
  type : String
  delay : Nat
deriving DecidableEq, Repr

/-- The `defaultJobOptions` record passed to each Bull queue constructor (queue.ts). -/
structure DefaultJobOptions where
  removeOnComplete : Nat
  removeOnFail : Nat
  attempts : Nat
  backoff : BackoffOptions
deriving DecidableEq, Repr

/-- Options of the transform lane `processVideoQueue` (queue.ts lines 14-25). -/
def processVideoQueueOpts : DefaultJobOptions :=
  { removeOnComplete := 10, removeOnFail := 5, attempts := 3,
    backoff := { type := "exponential", delay := 2000 } }

/-- Options of the voice lane `audioGenerationQueue` (queue.ts lines 27-38). -/
def audioGenerationQueueOpts : DefaultJobOptions :=
  { removeOnComplete := 10, removeOnFail := 5, attempts := 3,
    backoff := { type := "exponential", delay := 1000 } }

/-- Options of the export lane `exportQueue` (queue.ts lines 40-51). -/
def exportQueueOpts : DefaultJobOptions :=
  { removeOnComplete := 5, removeOnFail := 3, attempts := 2,
    backoff := { type := "exponential", delay := 5000 } }

/-- Modelled from the spec: the broker (the external Bull library, not part of
this repository's sources) delays attempt `k` of a lane constructed with
backoff type `exponential` by `base * 2 ^ (k - 1)` milliseconds. -/
def backoffDelay (opts : DefaultJobOptions) (k : Nat) : Nat :=
  if opts.backoff.type = "exponential" then opts.backoff.delay * 2 ^ (k - 1)
  else opts.backoff.delay

/-- The `type` enum of a visual effect (Recording.ts schema; `annotation` is the
fourth schema value, written `annotationKind` here). -/
inductive EffectType
  | blur
  | zoom
  | highlight
  | annotationKind
deriving DecidableEq, Repr

/-- The optional `coordinates` record of a visual effect. -/
structure Coordinates where
  x : ℚ
  y : ℚ
  width : ℚ
  height : ℚ
deriving DecidableEq, Repr

/-- A `visualEffects` array entry of a Recording. The engine reads only
`properties.scale`, modelled as the `scale` field. -/
structure VisualEffect where
  type : EffectType
  startTime : ℚ
  endTime : ℚ
  coordinates : Option Coordinates
  scale : Option ℚ
deriving DecidableEq, Repr

/-- Rendering of a JS number into a filter string. -/
def numStr (x : ℚ) : String := toString x

/-- The `:enable='between(t,start,end)'` clause appended to effect filters. -/
def enableClause (startTime endTime : ℚ) : String :=
  ":enable=\x27between(t," ++ numStr startTime ++ "," ++ numStr endTime ++ ")\x27"

/-- One iteration of the `recording.visualEffects.forEach` filter builder in
`exportVideo` (videoProcessor.ts lines 235-268): at most one filter string is
pushed per effect, and effects without `coordinates` push nothing. -/
def effectFilter (index : Nat) (e : VisualEffect) : Option String :=
  match e.type with
  | .blur =>
    match e.coordinates with
    | some c =>
      some ("[0:v]crop=" ++ numStr c.width ++ ":" ++ numStr c.height ++ ":" ++
        numStr c.x ++ ":" ++ numStr c.y ++ ",boxblur=10:1[blurred" ++ toString index ++ "];" ++
        "[0:v][blurred" ++ toString index ++ "]overlay=" ++ numStr c.x ++ ":" ++ numStr c.y ++
        enableClause e.startTime e.endTime ++ "[v" ++ toString index ++ "]")
    | none => none
  | .zoom =>
    match e.coordinates with
    | some c =>
      let scale := jsOrNum e.scale (3/2)
      some ("[0:v]crop=" ++ numStr c.width ++ ":" ++ numStr c.height ++ ":" ++
        numStr c.x ++ ":" ++ numStr c.y ++ ",scale=" ++ numStr (c.width * scale) ++ ":" ++
        numStr (c.height * scale) ++ "[zoomed" ++ toString index ++ "];" ++
        "[0:v][zoomed" ++ toString index ++ "]overlay=" ++
        numStr (c.x - (c.width * (scale - 1)) / 2) ++ ":" ++
        numStr (c.y - (c.height * (scale - 1)) / 2) ++
        enableClause e.startTime e.endTime ++ "[v" ++ toString index ++ "]")
    | none => none
  | .highlight =>
    match e.coordinates with
    | some c =>
      some ("[0:v]drawbox=x=" ++ numStr c.x ++ ":y=" ++ numStr c.y ++ ":w=" ++
        numStr c.width ++ ":h=" ++ numStr c.height ++ ":color=yellow@0.3:t=3" ++
        enableClause e.startTime e.endTime ++ "[v" ++ toString index ++ "]")
    | none => none
  | .annotationKind => none

/-- The complete `filters` array built by the `forEach` loop in `exportVideo`. -/
def buildFilters (effects : List VisualEffect) : List String :=
  effects.enum.filterMap (fun p => effectFilter p.1 p.2)

/-- The target format of `exportVideo` (TS union `mp4 | gif | webm`). -/
inductive ExportFormat
  | mp4
  | gif
  | webm
deriving DecidableEq, Repr

/-- The `watermark` sub-record of the export request options
(export.ts `exportVideoSchema`). -/
structure Watermark where
  enabled : Bool
  text : Option String
  position : String
  opacity : ℚ
deriving DecidableEq, Repr

/-- The `options` object an export job carries (export.ts `exportVideoSchema`);
every field is optional at the job-payload level. -/
structure ExportOptions where
  resolution : Option String
  frameRate : Option ℚ
  quality : Option String
  includeSubtitles : Option Bool
  includeAudio : Option Bool
  watermark : Option Watermark
deriving DecidableEq, Repr

/-- The empty `options` object `{}`. -/
def emptyOptions : ExportOptions :=
  { resolution := none, frameRate := none, quality := none,
    includeSubtitles := none, includeAudio := none, watermark := none }

/-- A `subtitles` array entry of a Recording (Recording.ts schema; the engine
reads `text`, `startTime`, `endTime`). -/
structure SubtitleCue where
  text : String
  startTime : ℚ
  endTime : ℚ
deriving DecidableEq, Repr

/-- The SRT file content `exportVideo` serializes from the cue list
(videoProcessor.ts lines 304-310). -/
def srtContent (subtitles : List SubtitleCue) : String :=
  String.intercalate "\n" (subtitles.enum.map (fun p =>
    toString (p.1 + 1) ++ "\n" ++ formatTime p.2.startTime ++ " --> " ++
    formatTime p.2.endTime ++ "\n" ++ p.2.text ++ "\n"))

/-- The ffmpeg command assembled by `exportVideo` before it runs: each field
records the last value set by the corresponding fluent-ffmpeg call, `none`
meaning the call never happened. The `-vf subtitles=<file>` option is recorded
as the serialized content of the cue file (the file path itself is a random
temp name). -/
structure FfmpegCommand where
  videoCodec : Option String
  audioCodec : Option String
  size : Option String
  fps : Option ℚ
  complexFilter : Option String
  subtitleFilter : Option String
deriving DecidableEq, Repr

/-- Command construction in `exportVideo` (videoProcessor.ts lines 229-314):
complex filter from the visual effects, then the format switch, then the
subtitle option when the recording has cues. -/
def buildCommand (effects : List VisualEffect) (subtitles : List SubtitleCue)
    (format : ExportFormat) (options : ExportOptions) : FfmpegCommand :=
  let base : FfmpegCommand :=
    { videoCodec := none, audioCodec := none, size := none, fps := none,
      complexFilter := none, subtitleFilter := none }
  let c1 :=
    if effects.length > 0 then
      let filters := buildFilters effects
      if filters.length > 0 then
        { base with complexFilter := some (String.intercalate ";" filters) }
      else base
    else base
  let c2 :=
    match format with
    | .mp4 =>
      { c1 with videoCodec := some "libx264", audioCodec := some "aac",
                size := some (jsOrStr options.resolution "1920x1080"),
                fps := some (jsOrNum options.frameRate 30) }
    | .gif =>
      { c1 with videoCodec := some "gif",
                size := some (jsOrStr options.resolution "800x600"),
                fps := some (jsOrNum options.frameRate 15) }
    | .webm =>
      { c1 with videoCodec := some "libvpx-vp9", audioCodec := some "libvorbis",
                size := some (jsOrStr options.resolution "1920x1080"),
                fps := some (jsOrNum options.frameRate 30) }
  if subtitles.length > 0 then
    { c2 with subtitleFilter := some (srtContent subtitles) }
  else c2

/-- A `script.segments` array entry of a Recording. `voice` models
`voiceSettings?.voice`, the only voice setting the engine reads. -/
structure Segment where
  id : String
  text : String
  startTime : ℚ
  endTime : ℚ
  audioUrl : Option String
  voice : Option String
deriving DecidableEq, Repr

/-- The slice of a persisted Recording document the pipeline reads and writes. -/
structure RecState where
  originalVideoUrl : String
  thumbnailUrl : Option String
  audioUrl : Option String
  scriptSegments : List Segment
  visualEffects : List VisualEffect
  subtitles : List SubtitleCue
  processingStatus : String
  processingProgress : ℚ
  errorMessage : Option String
deriving DecidableEq, Repr

/-- The temporary local files the three operations create under `TEMP_DIR`. -/
inductive TempFile
  | sourceVideo
  | thumbnail
  | extractedAudio
  | subtitleFile
  | outputArtifact
deriving DecidableEq, Repr

/-- Observable events of one job attempt, in call order: progress reports sent
through the job's progress channel, temp-file creations and deletions, and the
completion of each externally visible step. -/
inductive Ev
  | progress (p : ℚ)
  | created (f : TempFile)
  | deleted (f : TempFile)
  | downloadDone
  | thumbnailDone
  | thumbnailUploaded
  | audioExtracted
  | audioUploaded
  | recordSaved
  | synthCall (index : Nat) (text : String) (voice : String)
  | segmentUploaded (index : Nat)
  | writeBack
  | subtitleFileWritten
  | encodeDone
  | exportUploaded
deriving DecidableEq, Repr

/-- The progress values in a trace, in report order. -/
def progressValues (trace : List Ev) : List ℚ :=
  trace.filterMap (fun e => match e with | .progress p => some p | _ => none)

/-- The temp files a trace records as created. -/
def createdFiles (trace : List Ev) : List TempFile :=
  trace.filterMap (fun e => match e with | .created f => some f | _ => none)

/-- The temp files a trace records as deleted. -/
def deletedFiles (trace : List Ev) : List TempFile :=
  trace.filterMap (fun e => match e with | .deleted f => some f | _ => none)

/-- The indices of the segments for which the speech-synthesis adapter was
called, in call order. -/
def synthCalls (trace : List Ev) : List Nat :=
  trace.filterMap (fun e => match e with | .synthCall i _ _ => some i | _ => none)

/-- Outcome of one operation run: its event trace, its result (`error` models a
thrown exception reaching the worker), and the persisted Recording afterwards. -/
structure RunResult where
  trace : List Ev
  result : Except String Unit
  store : Option RecState
deriving Repr

/-- Failure environment of a `processVideo` attempt: which external step, if
any, throws, and with what message. `statusUpdateErr` is a failure of the
`findByIdAndUpdate` call inside the catch block. -/
structure PEnv where
  downloadErr : Option String
  thumbnailErr : Option String
  thumbUploadErr : Option String
  audioExtractErr : Option String
  audioUploadErr : Option String
  saveErr : Option String
  statusUpdateErr : Option String
deriving Repr

/-- The environment in which every external step succeeds. -/
def PEnv.ok : PEnv :=
  { downloadErr := none, thumbnailErr := none, thumbUploadErr := none,
    audioExtractErr := none, audioUploadErr := none, saveErr := none,
    statusUpdateErr := none }

/-- The catch block of `processVideo` (videoProcessor.ts lines 108-122): write
`processingStatus=failed` and the error message onto the Recording, swallowing
a failure of that update, then rethrow the original error. -/
def processVideoCatch (trace : List Ev) (msg : String) (store : Option RecState)
    (env : PEnv) : RunResult :=
  { trace := trace
    result := .error msg
    store :=
      match store, env.statusUpdateErr with
      | some r, none =>
        some { r with processingStatus := "failed", errorMessage := some msg }
      | some r, some _ => some r
      | none, _ => none }

/-- `processVideo` (videoProcessor.ts lines 17-123) as a trace transformer:
look up the recording, report 20, download the source (creating the temp video
file), report 40, generate the thumbnail, report 60, upload it, report 80,
extract the audio, upload it, report 90, save the Recording, delete the three
temp files, report 100. Any step failure falls into the catch block. -/
def processVideoRun (store : Option RecState) (env : PEnv) : RunResult :=
  match store with
  | none => processVideoCatch [] "Recording not found" none env
  | some r =>
    let t1 : List Ev := [.progress 20, .created .sourceVideo]
    match env.downloadErr with
    | some m => processVideoCatch t1 m (some r) env
    | none =>
      let t2 := t1 ++ [.downloadDone, .progress 40]
      match env.thumbnailErr with
      | some m => processVideoCatch t2 m (some r) env
      | none =>
        let t3 := t2 ++ [.created .thumbnail, .thumbnailDone, .progress 60]
        match env.thumbUploadErr with
        | some m => processVideoCatch t3 m (some r) env
        | none =>
          let t4 := t3 ++ [.thumbnailUploaded, .progress 80]
          match env.audioExtractErr with
          | some m => processVideoCatch t4 m (some r) env
          | none =>
            let t5 := t4 ++ [.created .extractedAudio, .audioExtracted]
            match env.audioUploadErr with
            | some m => processVideoCatch t5 m (some r) env
            | none =>
              let t6 := t5 ++ [.audioUploaded, .progress 90]
              match env.saveErr with
              | some m => processVideoCatch t6 m (some r) env
              | none =>
                { trace := t6 ++ [.recordSaved,
                    .deleted .sourceVideo, .deleted .thumbnail,
                    .deleted .extractedAudio, .progress 100]
                  result := .ok ()
                  store := some { r with
                    thumbnailUrl := some "s3:thumbnail",
                    audioUrl := some "s3:audio",
                    processingStatus := "completed",
                    processingProgress := 100 } }

/-- Failure environment of a `generateAudio` attempt: `synthErr i` is a failure
of the synthesis or segment-upload call for segment index `i`; `writeBackErr`
is a failure of `recording.save()`. -/
structure VEnv where
  synthErr : Nat → Option String
  writeBackErr : Option String

/-- The environment in which every external call succeeds. -/
def VEnv.ok : VEnv := { synthErr := fun _ => none, writeBackErr := none }

/-- The S3 key under which segment `seg` of recording `recId` is uploaded
(videoProcessor.ts line 166). -/
def segmentKey (recId : String) (seg : Segment) : String :=
  "segments/" ++ recId ++ "/" ++ seg.id ++ ".mp3"

/-- The `for` loop of `generateAudio` (videoProcessor.ts lines 139-175),
processing the segment at index `i` of `total` first: report
`(i / total) * 80`, synthesize with the segment text and the resolved voice
(`voiceSettings?.voice || 'rachel'`), upload, attach the URL to the segment.
A failure aborts the rest of the loop. -/
def voiceLoop (recId : String) (env : VEnv) (total : Nat) :
    Nat → List Segment → List Ev × Except String (List Segment)
  | _, [] => ([], .ok [])
  | i, seg :: rest =>
    let pEv : Ev := .progress ((i : ℚ) / (total : ℚ) * 80)
    match env.synthErr i with
    | some m => ([pEv], .error m)
    | none =>
      let seg1 := { seg with audioUrl := some (segmentKey recId seg) }
      let evs : List Ev :=
        [pEv, .synthCall i seg.text (jsOrStr seg.voice "rachel"), .segmentUploaded i]
      match voiceLoop recId env total (i + 1) rest with
      | (evs2, .ok rest1) => (evs ++ evs2, .ok (seg1 :: rest1))
      | (evs2, .error m) => (evs ++ evs2, .error m)

/-- `generateAudio` (videoProcessor.ts lines 125-197) as a trace transformer:
look up the recording, run the segment loop, report 90, save the segments back
onto the Recording, report 100. Its catch block only rethrows. -/
def generateAudioRun (recId : String) (store : Option RecState)
    (segments : List Segment) (env : VEnv) : RunResult :=
  match store with
  | none => { trace := [], result := .error "Recording not found", store := none }
  | some r =>
    match voiceLoop recId env segments.length 0 segments with
    | (evs, .error m) => { trace := evs, result := .error m, store := some r }
    | (evs, .ok segs1) =>
      match env.writeBackErr with
      | some m =>
        { trace := evs ++ [.progress 90], result := .error m, store := some r }
      | none =>
        { trace := evs ++ [.progress 90, .writeBack, .progress 100]
          result := .ok ()
          store := some { r with scriptSegments := segs1 } }

/-- Failure environment of an `exportVideo` attempt: which external step, if
any, throws, plus the percent-complete values the encoder emits while running
(`none` models an event whose `percent` field is `undefined`). -/
structure XEnv where
  downloadErr : Option String
  encodeErr : Option String
  uploadErr : Option String
  encoderPercents : List (Option ℚ)

/-- The environment in which every external step succeeds and the encoder
emits no progress events. -/
def XEnv.ok : XEnv :=
  { downloadErr := none, encodeErr := none, uploadErr := none,
    encoderPercents := [] }

/-- The progress reports forwarded from encoder events (videoProcessor.ts
lines 322-325): `Math.min(70 + (progress.percent || 0) * 0.2, 90)`. -/
def encodeProgressEvents (ps : List (Option ℚ)) : List Ev :=
  ps.map (fun p => .progress (min (70 + jsOrNum p 0 * (2 / 10)) 90))

/-- `exportVideo` (videoProcessor.ts lines 199-357) as a trace transformer:
look up the recording, report 10, download the source, report 30, build the
filter graph, report 50, configure the format, write the subtitle file when
the recording has cues, report 70, run the encode (forwarding encoder progress
and producing the output artifact), report 95, upload the artifact, delete the
downloaded source and the artifact, report 100. Its catch block only rethrows
and performs no cleanup; the Recording is never written. -/
def exportVideoRun (store : Option RecState) (format : ExportFormat)
    (options : ExportOptions) (env : XEnv) : RunResult :=
  match store with
  | none => { trace := [], result := .error "Recording not found", store := none }
  | some r =>
    let t1 : List Ev := [.progress 10, .created .sourceVideo]
    match env.downloadErr with
    | some m => { trace := t1, result := .error m, store := some r }
    | none =>
      let t2 := t1 ++ [.downloadDone, .progress 30, .progress 50]
      let _command := buildCommand r.visualEffects r.subtitles format options
      let t3 := t2 ++ (if r.subtitles.length > 0 then
        [.created .subtitleFile, .subtitleFileWritten] else [])
      let t4 := t3 ++ [.progress 70] ++ encodeProgressEvents env.encoderPercents
      match env.encodeErr with
      | some m => { trace := t4, result := .error m, store := some r }
      | none =>
        let t5 := t4 ++ [.created .outputArtifact, .encodeDone, .progress 95]
        match env.uploadErr with
        | some m => { trace := t5, result := .error m, store := some r }
        | none =>
          { trace := t5 ++ [.exportUploaded, .deleted .sourceVideo,
              .deleted .outputArtifact, .progress 100]
            result := .ok ()
            store := some r }

/-- The progress values seen on the transform job's channel: the worker
handler's initial `job.progress(10)` (queue.ts line 61) followed by the values
the engine's callback relays (queue.ts lines 63-65). -/
def transformLaneReports (store : Option RecState) (env : PEnv) : List ℚ :=
  10 :: progressValues (processVideoRun store env).trace

/-- The progress values seen on the voice job's channel: the worker handler's
initial `job.progress(10)` (queue.ts line 82) followed by the values the
engine's callback relays (queue.ts lines 84-86). -/
def voiceLaneReports (recId : String) (store : Option RecState)
    (segments : List Segment) (env : VEnv) : List ℚ :=
  10 :: progressValues (generateAudioRun recId store segments env).trace

/-- The progress values seen on the export job's channel: the worker handler's
initial `job.progress(10)` (queue.ts line 103) followed by the values the
engine's callback relays (queue.ts lines 105-107). -/
def exportLaneReports (store : Option RecState) (format : ExportFormat)
    (options : ExportOptions) (env : XEnv) : List ℚ :=
  10 :: progressValues (exportVideoRun store format options env).trace

/-- A concrete Recording used by the concrete evaluations below. -/
def rec0 : RecState :=
  { originalVideoUrl := "https://cdn.example/raw.mp4", thumbnailUrl := none,
    audioUrl := none, scriptSegments := [], visualEffects := [], subtitles := [],
    processingStatus := "processing", processingProgress := 0,
    errorMessage := none }

/-- A concrete script segment without a synthesized clip. -/
def seg0 : Segment :=
  { id := "seg-1", text := "Welcome to the demo", startTime := 0, endTime := 2,
    audioUrl := none, voice := none }

/-- A concrete script segment that already carries a synthesized clip. -/
def segWithAudio : Segment :=
  { seg0 with audioUrl := some "segments/rec-1/seg-1.mp3" }

/-- A concrete Recording with one subtitle cue. -/
def recWithSubtitle : RecState :=
  { rec0 with subtitles := [{ text := "Hello", startTime := 0, endTime := 2 }] }

/-- The progress value `p` is reported on `trace` only after the event
`marker`: every occurrence of `Ev.progress p` comes strictly after every
occurrence of `marker`. -/
def reportedAfter (trace : List Ev) (marker : Ev) (p : ℚ) : Prop :=
  ∀ i j, trace.get? i = some (Ev.progress p) → trace.get? j = some marker → j < i

/-- `jsMod` as a multiple of the fractional part of the quotient. -/
theorem jsMod_eq_mul_fract (x n : ℚ) (hn : n ≠ 0) :
    jsMod x n = n * Int.fract (x / n) := by
  rw [jsMod, Int.fract, mul_sub]
  rw [mul_div_cancel₀ _ hn]

/-- `jsMod` is nonnegative for a positive modulus. -/
theorem jsMod_nonneg (x n : ℚ) (hn : 0 < n) : 0 ≤ jsMod x n := by
  rw [jsMod_eq_mul_fract x n hn.ne']
  exact mul_nonneg hn.le (Int.fract_nonneg _)

/-- `jsMod` is below the modulus when the modulus is positive. -/
theorem jsMod_lt (x n : ℚ) (hn : 0 < n) : jsMod x n < n := by
  rw [jsMod_eq_mul_fract x n hn.ne']
  calc n * Int.fract (x / n) < n * 1 :=
        mul_lt_mul_of_pos_left (Int.fract_lt_one _) hn
    _ = n := mul_one n

/-- `padStart` never returns fewer than the requested number of characters. -/
theorem padStart_length (s : String) (n : Nat) (c : Char) :
    n ≤ (padStart s n c).length := by
  rw [padStart]
  split
  · omega
  · rw [String.length_append]
    have h : (String.mk (List.replicate (n - s.length) c)).length =
        n - s.length := List.length_replicate _ _
    omega

/-- A `filterMap` is unchanged by first dropping the elements it maps to
`none`. -/
theorem filterMap_eq_filterMap_filter {α β : Type} (f : α → Option β)
    (p : α → Bool) (h : ∀ a, p a = false → f a = none) :
    ∀ l : List α, l.filterMap f = (l.filter p).filterMap f := by
  intro l
  induction l with
  | nil => rfl
  | cons a t ih =>
    by_cases hp : p a = true
    · rw [List.filter_cons_of_pos hp, List.filterMap_cons, List.filterMap_cons, ih]
    · rw [List.filter_cons_of_neg (by simpa using hp),
        List.filterMap_cons, h a (by simpa using hp), ih]

/-- An effect without `coordinates` contributes no filter string. -/
theorem effectFilter_eq_none (i : Nat) (e : VisualEffect)
    (h : e.coordinates = none) : effectFilter i e = none := by
  rcases e with ⟨t, st, en, co, sc⟩
  cases h
  cases t <;> rfl

/-- C4: the transform lane is built with 3 attempts over exponential backoff
base 2000 ms, the voice lane with 3 attempts base 1000 ms, and the export lane
with 2 attempts base 5000 ms, the delay before attempt `k` being
`base * 2 ^ (k - 1)`. -/
theorem lane_retry_policies :
    (processVideoQueueOpts.attempts = 3 ∧
      processVideoQueueOpts.backoff.type = "exponential" ∧
      processVideoQueueOpts.backoff.delay = 2000 ∧
      ∀ k : Nat, backoffDelay processVideoQueueOpts k = 2000 * 2 ^ (k - 1)) ∧
    (audioGenerationQueueOpts.attempts = 3 ∧
      audioGenerationQueueOpts.backoff.type = "exponential" ∧
      audioGenerationQueueOpts.backoff.delay = 1000 ∧
      ∀ k : Nat, backoffDelay audioGenerationQueueOpts k = 1000 * 2 ^ (k - 1)) ∧
    (exportQueueOpts.attempts = 2 ∧
      exportQueueOpts.backoff.type = "exponential" ∧
      exportQueueOpts.backoff.delay = 5000 ∧
      ∀ k : Nat, backoffDelay exportQueueOpts k = 5000 * 2 ^ (k - 1)) := by
  refine ⟨⟨rfl, rfl, rfl, fun k => ?_⟩, ⟨rfl, rfl, rfl, fun k => ?_⟩,
    ⟨rfl, rfl, rfl, fun k => ?_⟩⟩ <;> rfl

/-- C5: the subtitle timestamp formatter renders every nonnegative input as
`HH:MM:SS,mmm` — hours, minutes and seconds zero-padded to 2 digits,
milliseconds to 3, with minutes and seconds below 60 and milliseconds below
1000 — and in particular maps 125.25 s to `00:02:05,250` and 3600 s to
`01:00:00,000`. -/
theorem formatTime_shape (q : ℚ) (hq : 0 ≤ q) :
    (formatTime q =
      padStart (toString (hoursOf q)) 2 '0' ++ ":" ++
      padStart (toString (minutesOf q)) 2 '0' ++ ":" ++
      padStart (toString (secsOf q)) 2 '0' ++ "," ++
      padStart (toString (msOf q)) 3 '0' ∧
     0 ≤ hoursOf q ∧ 0 ≤ minutesOf q ∧ minutesOf q < 60 ∧
     0 ≤ secsOf q ∧ secsOf q < 60 ∧ 0 ≤ msOf q ∧ msOf q < 1000 ∧
     2 ≤ (padStart (toString (hoursOf q)) 2 '0').length ∧
     2 ≤ (padStart (toString (minutesOf q)) 2 '0').length ∧
     2 ≤ (padStart (toString (secsOf q)) 2 '0').length ∧
     3 ≤ (padStart (toString (msOf q)) 3 '0').length) ∧
    formatTime (125.25 : ℚ) = "00:02:05,250" ∧
    formatTime (3600 : ℚ) = "01:00:00,000" := by
  refine ⟨⟨rfl, ?_, ?_, ?_, ?_, ?_, ?_, ?_,
      padStart_length _ _ _, padStart_length _ _ _, padStart_length _ _ _,
      padStart_length _ _ _⟩, ?_, ?_⟩
  · exact Int.floor_nonneg.mpr (by positivity)
  · exact Int.floor_nonneg.mpr
      (div_nonneg (jsMod_nonneg q 3600 (by norm_num)) (by norm_num))
  · refine Int.floor_lt.mpr ?_
    push_cast
    rw [div_lt_iff₀ (by norm_num : (0:ℚ) < 60)]
    calc jsMod q 3600 < 3600 := jsMod_lt q 3600 (by norm_num)
      _ = 60 * 60 := by norm_num
  · exact Int.floor_nonneg.mpr (jsMod_nonneg q 60 (by norm_num))
  · exact Int.floor_lt.mpr (by push_cast; exact jsMod_lt q 60 (by norm_num))
  · exact Int.floor_nonneg.mpr
      (mul_nonneg (jsMod_nonneg q 1 one_pos) (by norm_num))
  · refine Int.floor_lt.mpr ?_
    push_cast
    calc jsMod q 1 * 1000 < 1 * 1000 :=
          (mul_lt_mul_right (by norm_num)).mpr (jsMod_lt q 1 one_pos)
      _ = 1000 := one_mul 1000
  · norm_num [formatTime, hoursOf, minutesOf, secsOf, msOf, jsMod]
    rfl
  · norm_num [formatTime, hoursOf, minutesOf, secsOf, msOf, jsMod]
    rfl

/-- Witness for `formatTime_shape`, instantiated at 125.25 seconds. -/
theorem formatTime_shape_witness :
    (0:ℚ) ≤ 125.25 ∧ minutesOf (125.25 : ℚ) < 60 :=
  have hq : (0:ℚ) ≤ 125.25 := by norm_num
  ⟨hq, (formatTime_shape 125.25 hq).1.2.2.2.1⟩

/-- C6: during filter-graph construction every visual effect whose
`coordinates` field is absent is skipped without an error, and the remaining
effects contribute their filters in array order (keeping their original array
indices). -/
theorem filters_skip_effects_without_coordinates :
    (∀ i e, (e : VisualEffect).coordinates = none → effectFilter i e = none) ∧
    ∀ effects : List VisualEffect,
      buildFilters effects =
        (effects.enum.filter (fun p => p.2.coordinates.isSome)).filterMap
          (fun p => effectFilter p.1 p.2) := by
  refine ⟨effectFilter_eq_none, fun effects => ?_⟩
  exact filterMap_eq_filterMap_filter _ _
    (fun p hp => effectFilter_eq_none p.1 p.2
      (Option.not_isSome_iff_eq_none.mp (by simpa using hp))) _

/-- Witness for `filters_skip_effects_without_coordinates`: a blur effect with
no coordinates produces no filter. -/
theorem filters_skip_effects_without_coordinates_witness :
    effectFilter 0
      { type := .blur, startTime := 0, endTime := 1,
        coordinates := none, scale := none } = none :=
  filters_skip_effects_without_coordinates.1 0 _ rfl

/-- The full event trace of a successful transform attempt. -/
def transformSuccessTrace : List Ev :=
  [.progress 20, .created .sourceVideo, .downloadDone, .progress 40,
   .created .thumbnail, .thumbnailDone, .progress 60,
   .thumbnailUploaded, .progress 80,
   .created .extractedAudio, .audioExtracted,
   .audioUploaded, .progress 90, .recordSaved,
   .deleted .sourceVideo, .deleted .thumbnail, .deleted .extractedAudio,
   .progress 100]

/-- C2 counterexample: in a successful transform run the checkpoint 20 is
reported before the source download completes (trace position 0 versus 2), not
after it as claimed. -/
theorem transform_reports_20_before_download :
    (processVideoRun (some rec0) PEnv.ok).trace = transformSuccessTrace ∧
    ¬ reportedAfter (processVideoRun (some rec0) PEnv.ok).trace
        Ev.downloadDone 20 := by
  refine ⟨rfl, fun h => ?_⟩
  have h02 := h 0 2 rfl rfl
  omega

/-- C2 amended: every successful transform run reports exactly 20, 40, 60, 80,
90, 100 in that order, but with 20 before the source download, 40 after the
download, 60 after thumbnail generation, 80 after the thumbnail upload, 90
after the audio upload, and 100 after the record update and temp cleanup. -/
theorem transform_progress_checkpoints (r : RecState) (env : PEnv)
    (h : (processVideoRun (some r) env).result = .ok ()) :
    (processVideoRun (some r) env).trace = transformSuccessTrace ∧
    progressValues (processVideoRun (some r) env).trace =
      [20, 40, 60, 80, 90, 100] := by
  rcases env with ⟨d, te, tu, ae, au, sv, su⟩
  cases d <;> cases te <;> cases tu <;> cases ae <;> cases au <;> cases sv <;>
    simp_all [processVideoRun, processVideoCatch, transformSuccessTrace,
      progressValues]

/-- Witness for `transform_progress_checkpoints` at a concrete recording. -/
theorem transform_progress_checkpoints_witness :
    (processVideoRun (some rec0) PEnv.ok).trace = transformSuccessTrace :=
  (transform_progress_checkpoints rec0 PEnv.ok rfl).1

/-- C7: whenever a step of a transform attempt fails (and the failure-status
write itself succeeds), the engine writes `processingStatus=failed` together
with the failure's message onto the owning Recording and re-raises the
original error, which the worker observes as the attempt's result. -/
theorem transform_failure_marks_recording (r : RecState) (env : PEnv)
    (m : String) (hsu : env.statusUpdateErr = none)
    (h : (processVideoRun (some r) env).result = .error m) :
    (processVideoRun (some r) env).store =
      some { r with processingStatus := "failed", errorMessage := some m } := by
  rcases env with ⟨d, te, tu, ae, au, sv, su⟩
  cases d <;> cases te <;> cases tu <;> cases ae <;> cases au <;> cases sv <;>
    simp_all [processVideoRun, processVideoCatch]

/-- Witness for `transform_failure_marks_recording`: a failing thumbnail step
marks the concrete recording failed with the step's message. -/
theorem transform_failure_marks_recording_witness :
    (processVideoRun (some rec0)
      { PEnv.ok with thumbnailErr := some "ffmpeg exited with code 1" }).store =
      some { rec0 with
              processingStatus := "failed"
              errorMessage := some "ffmpeg exited with code 1" } :=
  transform_failure_marks_recording rec0
    { PEnv.ok with thumbnailErr := some "ffmpeg exited with code 1" }
    "ffmpeg exited with code 1" rfl rfl

/-- C8: exporting a Recording with no visual effects and no subtitles in mp4
format with empty options yields a command with no complex filter graph and no
subtitle filter, at the default resolution 1920x1080 and 30 fps, with libx264
video and aac audio. -/
theorem export_default_mp4_command (effects : List VisualEffect)
    (subtitles : List SubtitleCue) (options : ExportOptions)
    (he : effects = []) (hs : subtitles = []) (ho : options = emptyOptions) :
    buildCommand effects subtitles .mp4 options =
      { videoCodec := some "libx264", audioCodec := some "aac",
        size := some "1920x1080", fps := some 30,
        complexFilter := none, subtitleFilter := none } := by
  subst he hs ho
  rfl

/-- Witness for `export_default_mp4_command` at the empty recording. -/
theorem export_default_mp4_command_witness :
    buildCommand [] [] .mp4 emptyOptions =
      { videoCodec := some "libx264", audioCodec := some "aac",
        size := some "1920x1080", fps := some 30,
        complexFilter := none, subtitleFilter := none } :=
  export_default_mp4_command [] [] emptyOptions rfl rfl rfl

/-- C10: the constructed export command depends on the options only through
`resolution` and `frameRate` — two option values agreeing there yield the same
command whatever their `quality`, `includeSubtitles`, `includeAudio` and
`watermark` fields — and the subtitle burn-in filter is present exactly when
the recording carries subtitle cues. -/
theorem export_command_ignores_unused_options (effects : List VisualEffect)
    (subtitles : List SubtitleCue) (format : ExportFormat)
    (o1 o2 : ExportOptions) (hres : o1.resolution = o2.resolution)
    (hfr : o1.frameRate = o2.frameRate) :
    buildCommand effects subtitles format o1 =
      buildCommand effects subtitles format o2 ∧
    ((buildCommand effects subtitles format o1).subtitleFilter = none ↔
      subtitles = []) := by
  constructor
  · unfold buildCommand
    rw [hres, hfr]
  · cases format <;> cases subtitles <;>
      simp_all [buildCommand, apply_ite FfmpegCommand.subtitleFilter]

/-- Witness for `export_command_ignores_unused_options`: two option values
differing in `quality` and `includeAudio` produce the same command. -/
theorem export_command_ignores_unused_options_witness :
    buildCommand [] [] .mp4 { emptyOptions with quality := some "low" } =
      buildCommand [] [] .mp4 { emptyOptions with includeAudio := some false } :=
  (export_command_ignores_unused_options [] [] .mp4
    { emptyOptions with quality := some "low" }
    { emptyOptions with includeAudio := some false } rfl rfl).1

/-- Trace and result of the all-success voice loop starting at index `i`: for
each remaining segment, in order, a progress report `(index / total) * 80`
followed by the synthesis call and the segment upload, with the uploaded URL
attached to every segment. -/
theorem voiceLoop_ok (recId : String) (total : Nat) :
    ∀ (segs : List Segment) (i : Nat),
      voiceLoop recId VEnv.ok total i segs =
        ((segs.enumFrom i).flatMap (fun p =>
          [Ev.progress ((p.1 : ℚ) / (total : ℚ) * 80),
           Ev.synthCall p.1 p.2.text (jsOrStr p.2.voice "rachel"),
           Ev.segmentUploaded p.1]),
         .ok (segs.map (fun s =>
           { s with audioUrl := some (segmentKey recId s) })))
  | [], _ => rfl
  | seg :: rest, i => by
    have ih := voiceLoop_ok recId total rest (i + 1)
    simp only [VEnv.ok] at ih ⊢
    simp only [voiceLoop, ih, List.enumFrom_cons, List.flatMap_cons,
      List.map_cons, List.cons_append, List.nil_append]

/-- The synthesis calls recorded by the loop blocks are exactly the segment
indices, in order. -/
theorem synthCalls_blocks (total : Nat) :
    ∀ (segs : List Segment) (i : Nat),
      synthCalls ((segs.enumFrom i).flatMap (fun p =>
        [Ev.progress ((p.1 : ℚ) / (total : ℚ) * 80),
         Ev.synthCall p.1 p.2.text (jsOrStr p.2.voice "rachel"),
         Ev.segmentUploaded p.1])) = List.range' i segs.length
  | [], _ => rfl
  | seg :: rest, i => by
    have ih := synthCalls_blocks total rest (i + 1)
    simp [synthCalls, List.enumFrom_cons, List.flatMap_cons,
      List.filterMap_append] at ih ⊢
    simpa [List.range'] using ih

/-- The progress reports recorded by the loop blocks are `index / total * 80`
for each segment index, in order. -/
theorem progressValues_blocks (total : Nat) :
    ∀ (segs : List Segment) (i : Nat),
      progressValues ((segs.enumFrom i).flatMap (fun p =>
        [Ev.progress ((p.1 : ℚ) / (total : ℚ) * 80),
         Ev.synthCall p.1 p.2.text (jsOrStr p.2.voice "rachel"),
         Ev.segmentUploaded p.1])) =
        (List.range' i segs.length).map
          (fun j : ℕ => (j : ℚ) / (total : ℚ) * 80)
  | [], _ => rfl
  | seg :: rest, i => by
    have ih := progressValues_blocks total rest (i + 1)
    simp [progressValues, List.enumFrom_cons, List.flatMap_cons,
      List.filterMap_append] at ih ⊢
    simpa [List.range'] using ih

/-- C3 counterexample: the engine re-synthesizes a segment that already
carries a synthesized clip (the adapter is called for it), and 90 is reported
before the batched write-back, not after it. -/
theorem voice_resynthesizes_existing_clip :
    synthCalls
        (generateAudioRun "rec-1" (some rec0) [segWithAudio] VEnv.ok).trace
      = [0] ∧
    ¬ reportedAfter
        (generateAudioRun "rec-1" (some rec0) [segWithAudio] VEnv.ok).trace
        Ev.writeBack 90 := by
  refine ⟨rfl, fun h => ?_⟩
  have h34 := h 3 4 rfl rfl
  omega

/-- C3 amended: the engine calls the speech-synthesis adapter for every script
segment — including segments that already carry a synthesized clip — strictly
in input order, reports `index / total * 80` before each segment, then reports
90 before the batched write-back and 100 after it, and attaches the uploaded
URL to every segment. -/
theorem voice_synthesizes_every_segment (recId : String) (r : RecState)
    (segs : List Segment) :
    (generateAudioRun recId (some r) segs VEnv.ok).trace =
      ((segs.enumFrom 0).flatMap (fun p =>
        [Ev.progress ((p.1 : ℚ) / (segs.length : ℚ) * 80),
         Ev.synthCall p.1 p.2.text (jsOrStr p.2.voice "rachel"),
         Ev.segmentUploaded p.1])) ++
        [Ev.progress 90, Ev.writeBack, Ev.progress 100] ∧
    synthCalls (generateAudioRun recId (some r) segs VEnv.ok).trace =
      List.range segs.length ∧
    (generateAudioRun recId (some r) segs VEnv.ok).result = .ok () ∧
    (generateAudioRun recId (some r) segs VEnv.ok).store =
      some { r with scriptSegments := segs.map (fun s =>
        { s with audioUrl := some (segmentKey recId s) }) } := by
  have hl := voiceLoop_ok recId segs.length segs 0
  have ht : generateAudioRun recId (some r) segs VEnv.ok =
      { trace := ((segs.enumFrom 0).flatMap (fun p =>
          [Ev.progress ((p.1 : ℚ) / (segs.length : ℚ) * 80),
           Ev.synthCall p.1 p.2.text (jsOrStr p.2.voice "rachel"),
           Ev.segmentUploaded p.1])) ++
          [Ev.progress 90, Ev.writeBack, Ev.progress 100]
        result := .ok ()
        store := some { r with scriptSegments := segs.map (fun s =>
          { s with audioUrl := some (segmentKey recId s) }) } } := by
    unfold generateAudioRun
    rw [hl]
    rfl
  rw [ht]
  refine ⟨rfl, ?_, rfl, rfl⟩
  have hb := synthCalls_blocks segs.length segs 0
  have hnil : synthCalls [Ev.progress 90, Ev.writeBack, Ev.progress 100] = [] := rfl
  simp only [synthCalls] at hb hnil ⊢
  rw [List.filterMap_append, hb, hnil, List.append_nil, List.range_eq_range']

/-- The progress values of a successful voice run: the per-segment loop
reports followed by 90 and 100. -/
theorem voice_progressValues (recId : String) (r : RecState)
    (segs : List Segment) :
    progressValues (generateAudioRun recId (some r) segs VEnv.ok).trace =
      (List.range' 0 segs.length).map
        (fun j : ℕ => (j : ℚ) / (segs.length : ℚ) * 80) ++ [90, 100] := by
  have hl := voiceLoop_ok recId segs.length segs 0
  have ht : (generateAudioRun recId (some r) segs VEnv.ok).trace =
      ((segs.enumFrom 0).flatMap (fun p =>
        [Ev.progress ((p.1 : ℚ) / (segs.length : ℚ) * 80),
         Ev.synthCall p.1 p.2.text (jsOrStr p.2.voice "rachel"),
         Ev.segmentUploaded p.1])) ++
        [Ev.progress 90, Ev.writeBack, Ev.progress 100] := by
    unfold generateAudioRun
    rw [hl]
    rfl
  rw [ht]
  have hb := progressValues_blocks segs.length segs 0
  have htail : progressValues [Ev.progress 90, Ev.writeBack, Ev.progress 100] =
      [90, 100] := rfl
  simp only [progressValues] at hb htail ⊢
  rw [List.filterMap_append, hb, htail]

/-- The progress reports forwarded from a list of encoder events: the banded
value of each event, in order. -/
theorem progressValues_encodeProgress (ps : List (Option ℚ)) :
    progressValues (encodeProgressEvents ps) =
      ps.map (fun p => min (70 + jsOrNum p 0 * (2 / 10)) 90) := by
  induction ps with
  | nil => rfl
  | cons p t ih =>
    simp only [encodeProgressEvents, List.map_cons, progressValues,
      List.filterMap_cons] at ih ⊢
    rw [ih]

/-- The progress values of a successful export run: the fixed checkpoints 10,
30, 50, 70, then the banded encoder reports, then 95 and 100. -/
theorem export_progressValues (r : RecState) (format : ExportFormat)
    (options : ExportOptions) (ps : List (Option ℚ)) :
    progressValues (exportVideoRun (some r) format options
      { downloadErr := none, encodeErr := none, uploadErr := none,
        encoderPercents := ps }).trace =
      [10, 30, 50, 70] ++
        ps.map (fun p => min (70 + jsOrNum p 0 * (2 / 10)) 90) ++ [95, 100] := by
  have hp := progressValues_encodeProgress ps
  simp only [progressValues] at hp ⊢
  simp [exportVideoRun, List.filterMap_append, hp]
  rintro a - (rfl | rfl) <;> rfl

/-- C1 counterexample: on the voice lane with one segment the job's channel
sees 10 (the worker handler's initial report) followed by 0 (the engine's
first loop report `(0 / 1) * 80`), then 90 and 100 — the second report is
smaller than the first, so the reported sequence is not non-decreasing. -/
theorem voice_reports_decrease :
    voiceLaneReports "rec-1" (some rec0) [seg0] VEnv.ok = [10, 0, 90, 100] ∧
    ¬ List.Chain' (fun a b : ℚ => a ≤ b)
        (voiceLaneReports "rec-1" (some rec0) [seg0] VEnv.ok) := by
  have h : voiceLaneReports "rec-1" (some rec0) [seg0] VEnv.ok =
      [10, 0, 90, 100] := by
    norm_num [voiceLaneReports, generateAudioRun, voiceLoop, VEnv.ok,
      progressValues, rec0, seg0]
    rfl
  refine ⟨h, fun hc => ?_⟩
  rw [h] at hc
  have h10 : (10 : ℚ) ≤ 0 := (List.chain'_cons.mp hc).1
  norm_num at h10

/-- C1 amended: the transform lane's reported sequence (the handler's initial
10 followed by the engine's checkpoints) is non-decreasing; the export lane's
reported sequence (the handler's initial 10, then 10, 30, 50, 70, the banded
encoder reports `min(70 + percent * 0.2, 90)`, 95, 100) is non-decreasing
whenever the banded encoder reports are themselves non-decreasing and at
least 70 — in particular whenever the encoder emits no events; and the voice
engine's own reports are non-decreasing among themselves; but the voice
handler's initial 10 is followed by the engine's first loop report
`(0 / n) * 80 = 0`, so for a voice job with at least one segment the channel
sequence decreases at that point. -/
theorem lane_reports_monotone (r : RecState) (recId : String)
    (segs : List Segment) (format : ExportFormat) (options : ExportOptions) :
    (List.Chain' (fun a b : ℚ => a ≤ b)
      (transformLaneReports (some r) PEnv.ok) ∧
    ∀ ps : List (Option ℚ),
      List.Chain' (fun a b : ℚ => a ≤ b)
        (ps.map (fun p => min (70 + jsOrNum p 0 * (2 / 10)) 90)) →
      (∀ x ∈ ps.map (fun p => min (70 + jsOrNum p 0 * (2 / 10)) 90),
        (70 : ℚ) ≤ x) →
      List.Chain' (fun a b : ℚ => a ≤ b)
        (exportLaneReports (some r) format options
          { downloadErr := none, encodeErr := none, uploadErr := none,
            encoderPercents := ps })) ∧
    List.Chain' (fun a b : ℚ => a ≤ b)
      (progressValues (generateAudioRun recId (some r) segs VEnv.ok).trace) := by
  refine ⟨⟨?_, ?_⟩, ?_⟩
  · have ht : transformLaneReports (some r) PEnv.ok =
        [10, 20, 40, 60, 80, 90, 100] := rfl
    rw [ht]
    norm_num [List.chain'_cons]
  · intro ps hchain hlo
    have hfull : exportLaneReports (some r) format options
        { downloadErr := none, encodeErr := none, uploadErr := none,
          encoderPercents := ps } =
        [10, 10, 30, 50, 70] ++
          (ps.map (fun p => min (70 + jsOrNum p 0 * (2 / 10)) 90) ++
            [95, 100]) := by
      rw [exportLaneReports, export_progressValues]
      simp
    rw [hfull, List.chain'_append]
    refine ⟨by norm_num [List.chain'_cons], ?_, ?_⟩
    · rw [List.chain'_append]
      refine ⟨hchain, by norm_num [List.chain'_cons], ?_⟩
      intro x hx y hy
      simp only [List.head?_cons, Option.mem_def, Option.some.injEq] at hy
      subst hy
      have hmem := List.mem_of_mem_getLast? hx
      obtain ⟨p, hp, hbp⟩ := List.mem_map.mp hmem
      calc x = min (70 + jsOrNum p 0 * (2 / 10)) 90 := hbp.symm
        _ ≤ 90 := min_le_right _ _
        _ ≤ 95 := by norm_num
    · intro x hx y hy
      simp only [List.getLast?_cons_cons, List.getLast?_singleton,
        Option.mem_def, Option.some.injEq] at hx
      subst hx
      cases hps : ps with
      | nil =>
        subst hps
        simp only [List.map_nil, List.nil_append, List.head?_cons,
          Option.mem_def, Option.some.injEq] at hy
        subst hy
        norm_num
      | cons p t =>
        subst hps
        simp only [List.map_cons, List.cons_append, List.head?_cons,
          Option.mem_def, Option.some.injEq] at hy
        subst hy
        exact hlo _ (List.mem_map_of_mem _ (List.mem_cons_self p t))
  · rw [voice_progressValues recId r segs]
    rw [List.chain'_append]
    refine ⟨?_, ?_, ?_⟩
    · rw [← List.range_eq_range']
      refine (List.chain'_map _).mpr ?_
      cases hn : segs.length with
      | zero => simp
      | succ n =>
        rw [List.chain'_range_succ]
        intro k hk
        have hc : ((k : ℕ) : ℚ) ≤ ((k + 1 : ℕ) : ℚ) := by
          exact_mod_cast Nat.le_succ k
        have hdiv : ((k : ℕ) : ℚ) / ((n + 1 : ℕ) : ℚ) ≤
            ((k + 1 : ℕ) : ℚ) / ((n + 1 : ℕ) : ℚ) := by
          gcongr
        exact mul_le_mul_of_nonneg_right hdiv (by norm_num)
    · norm_num [List.chain'_cons]
    · intro x hx y hy
      simp only [List.head?_cons, Option.mem_def, Option.some.injEq] at hy
      subst hy
      have hmem := List.mem_of_mem_getLast? hx
      obtain ⟨j, hj, hfj⟩ := List.mem_map.mp hmem
      have hjlt : j < segs.length := by
        have hr := List.mem_range'_1.mp hj
        omega
      have hnpos : (0 : ℚ) < (segs.length : ℚ) := by
        have hp : 0 < segs.length := lt_of_le_of_lt (Nat.zero_le j) hjlt
        exact_mod_cast hp
      have hone : (j : ℚ) / (segs.length : ℚ) ≤ 1 := by
        rw [div_le_one hnpos]
        exact_mod_cast hjlt.le
      calc x = (j : ℚ) / (segs.length : ℚ) * 80 := hfj.symm
        _ ≤ 1 * 80 := mul_le_mul_of_nonneg_right hone (by norm_num)
        _ ≤ 90 := by norm_num

/-- Witness for `lane_reports_monotone`: at the benign environment, where the
encoder emits no events, the export channel sequence is non-decreasing. -/
theorem lane_reports_monotone_witness :
    List.Chain' (fun a b : ℚ => a ≤ b)
      (exportLaneReports (some rec0) ExportFormat.mp4 emptyOptions XEnv.ok) :=
  (lane_reports_monotone rec0 "rec-1" [] ExportFormat.mp4 emptyOptions).1.2
    [] (by simp) (by simp)

/-- Encoder progress events never delete a file. -/
theorem deletedFiles_encodeProgress (ps : List (Option ℚ)) :
    deletedFiles (encodeProgressEvents ps) = [] := by
  simp [encodeProgressEvents, deletedFiles]

/-- C9 counterexample: a successful export of a recording with one subtitle
cue creates the subtitle file but never deletes it, and a failed transform
attempt deletes none of the temp files it created. -/
theorem temp_files_leak :
    (createdFiles (exportVideoRun (some recWithSubtitle) .mp4 emptyOptions
        XEnv.ok).trace = [.sourceVideo, .subtitleFile, .outputArtifact] ∧
      TempFile.subtitleFile ∉
        deletedFiles (exportVideoRun (some recWithSubtitle) .mp4 emptyOptions
          XEnv.ok).trace) ∧
    (createdFiles (processVideoRun (some rec0)
        { PEnv.ok with thumbnailErr := some "boom" }).trace = [.sourceVideo] ∧
      deletedFiles (processVideoRun (some rec0)
        { PEnv.ok with thumbnailErr := some "boom" }).trace = []) := by
  refine ⟨⟨rfl, ?_⟩, rfl, rfl⟩
  have hd : deletedFiles (exportVideoRun (some recWithSubtitle) .mp4
      emptyOptions XEnv.ok).trace = [.sourceVideo, .outputArtifact] := rfl
  rw [hd]
  simp

/-- C9 amended: temp-file deletion happens only on the success path — a
successful transform attempt deletes its downloaded source, thumbnail and
extracted audio, and a successful export attempt deletes its downloaded
source and output artifact but never the subtitle file; a failed attempt of
either operation deletes nothing. -/
theorem temp_cleanup_on_success_only (r : RecState) (envF : PEnv) (mF : String)
    (xS xF : XEnv) (format : ExportFormat) (options : ExportOptions)
    (mX : String)
    (hd : xS.downloadErr = none) (he : xS.encodeErr = none)
    (hu : xS.uploadErr = none)
    (hf : (processVideoRun (some r) envF).result = .error mF)
    (hx : (exportVideoRun (some r) format options xF).result = .error mX) :
    deletedFiles (processVideoRun (some r) PEnv.ok).trace =
        [.sourceVideo, .thumbnail, .extractedAudio] ∧
    deletedFiles (processVideoRun (some r) envF).trace = [] ∧
    deletedFiles (exportVideoRun (some r) format options xS).trace =
        [.sourceVideo, .outputArtifact] ∧
    TempFile.subtitleFile ∉
      deletedFiles (exportVideoRun (some r) format options xS).trace ∧
    deletedFiles (exportVideoRun (some r) format options xF).trace = [] := by
  refine ⟨rfl, ?_, ?_, ?_, ?_⟩
  · rcases envF with ⟨d, te, tu, ae, au, sv, su⟩
    cases d <;> cases te <;> cases tu <;> cases ae <;> cases au <;> cases sv <;>
      simp_all [processVideoRun, processVideoCatch, deletedFiles]
  · rcases xS with ⟨d, e, u, ps⟩
    simp only at hd he hu
    subst hd he hu
    have hps := deletedFiles_encodeProgress ps
    simp only [deletedFiles] at hps ⊢
    simp [exportVideoRun, encodeProgressEvents, List.filterMap_append, hps]
    split <;> simp
  · rcases xS with ⟨d, e, u, ps⟩
    simp only at hd he hu
    subst hd he hu
    have hps := deletedFiles_encodeProgress ps
    simp only [deletedFiles] at hps ⊢
    simp [exportVideoRun, encodeProgressEvents, List.filterMap_append, hps]
    rintro a - (rfl | rfl) <;> simp
  · rcases xF with ⟨d, e, u, ps⟩
    have hps := deletedFiles_encodeProgress ps
    simp only [deletedFiles] at hps
    cases d <;> cases e <;> cases u <;>
      simp_all [exportVideoRun, deletedFiles, List.filterMap_append] <;>
      rintro a - (rfl | rfl) <;> rfl

/-- Witness for `temp_cleanup_on_success_only`: concrete success and failure
environments for both operations. -/
theorem temp_cleanup_on_success_only_witness :
    deletedFiles (exportVideoRun (some recWithSubtitle) .mp4 emptyOptions
        XEnv.ok).trace = [.sourceVideo, .outputArtifact] ∧
    deletedFiles (processVideoRun (some recWithSubtitle)
        { PEnv.ok with thumbnailErr := some "boom" }).trace = [] :=
  have h := temp_cleanup_on_success_only recWithSubtitle
    { PEnv.ok with thumbnailErr := some "boom" } "boom"
    XEnv.ok { XEnv.ok with downloadErr := some "socket hang up" } .mp4
    emptyOptions "socket hang up" rfl rfl rfl rfl rfl
  ⟨h.2.2.1, h.2.1⟩

end SmartDemo
